import Mathlib

/-
Verification of the citation formatting engine of the arxiv-mcp-server
repository (src/arxiv_mcp_server/tools/citations.py).

Shallow embedding conventions:
* Python strings are Lean String; Python str.lower and str.split (no
  separator, whitespace splitting with empty pieces dropped) are embedded
  as pyLower and pySplit below, written with structural recursion so the
  kernel can evaluate them.
* arxiv.Result is embedded as the structure ArxivPaper holding exactly the
  attributes generate_citation reads: title, the author display names
  (paper.authors mapped through .name), the year and the month name of the
  published date, entry_id and the short id.
* datetime.now().strftime of the day-month-year pattern in the harvard
  branch is passed in as an explicit clock argument named today.
* The IndexError that line 126 of the source raises when the first author
  name has no whitespace tokens is embedded by giving generate_citation
  the result type Option String, none standing for the raised exception.
* handle_citation receives the arguments dict as the structure HandleArgs
  and the arxiv client as a function from a paper id to a FetchOutcome:
  found paper, stopIteration (empty result iterator), or raised msg (any
  other exception, carrying its str rendering). Its reply is a list of
  TextContent items; the json.dumps serialization of the string-valued
  response dict is embedded structurally as the ordered key-value list
  held in the obj field, which is exactly the object the emitted JSON
  text parses back to.
-/

set_option maxRecDepth 16384

/-- CITATION_FORMATS from line 16 of the source. -/
def CITATION_FORMATS : List String := ["apa", "mla", "chicago", "harvard", "ieee", "bibtex"]

/-- Embedding of Python str.lower restricted to the ASCII letters that
Char.toLower handles; the source only ever lowers ASCII material. -/
def pyLower (s : String) : String := ⟨s.data.map Char.toLower⟩

/-- Helper for pySplit: walks the character list, acc holds the current
token reversed. -/
def pySplitAux : List Char → List Char → List String
  | [], acc => if acc = [] then [] else [⟨acc.reverse⟩]
  | c :: rest, acc =>
    if c.isWhitespace then
      (if acc = [] then pySplitAux rest [] else ⟨acc.reverse⟩ :: pySplitAux rest [])
    else pySplitAux rest (c :: acc)

/-- Embedding of Python str.split with no separator: split on runs of
whitespace and drop empty pieces. -/
def pySplit (s : String) : List String := pySplitAux s.data []

/-- Embedding of the fields of arxiv.Result that generate_citation reads
(lines 99 to 104 of the source): title, author display names, year and
month name of the published date, entry_id, and the short id. -/
structure ArxivPaper where
  title : String
  authors : List String
  publishedYear : Nat
  publishedMonth : String
  entryId : String
  shortId : String

/-- format_authors from lines 41 to 93 of the source, translated branch by
branch. List indexing mirrors Python: authors[0] is headD, authors[1] is
getD 1, authors[:-1] is dropLast, authors[-1] is getLastD; every access is
guarded by the surrounding length tests exactly as in the source. -/
def format_authors (authors : List String) (format_type : String) : String :=
  if authors = [] then ""
  else if format_type = "apa" then
    if authors.length = 1 then authors.headD ""
    else if authors.length = 2 then authors.headD "" ++ " & " ++ authors.getD 1 ""
    else authors.headD "" ++ " et al."
  else if format_type = "mla" then
    if authors.length = 1 then authors.headD ""
    else if authors.length = 2 then authors.headD "" ++ ", and " ++ authors.getD 1 ""
    else authors.headD "" ++ " et al."
  else if format_type = "chicago" then
    if authors.length = 1 then authors.headD ""
    else if authors.length = 2 then authors.headD "" ++ " and " ++ authors.getD 1 ""
    else if authors.length ≤ 7 then
      String.intercalate ", " authors.dropLast ++ ", and " ++ authors.getLastD ""
    else authors.headD "" ++ " et al."
  else if format_type = "harvard" then
    if authors.length = 1 then authors.headD ""
    else if authors.length = 2 then authors.headD "" ++ " and " ++ authors.getD 1 ""
    else if authors.length = 3 then
      authors.headD "" ++ ", " ++ authors.getD 1 "" ++ " and " ++ authors.getD 2 ""
    else authors.headD "" ++ " et al."
  else if format_type = "ieee" then
    if authors.length = 1 then authors.headD ""
    else if authors.length = 2 then authors.headD "" ++ " and " ++ authors.getD 1 ""
    else String.intercalate ", " authors.dropLast ++ ", and " ++ authors.getLastD ""
  else String.intercalate ", " authors

/-- generate_citation from lines 96 to 137 of the source. The argument
today is the strftime day-month-year text the harvard branch reads from
the wall clock. Result none embeds the IndexError raised on line 126 when
the author list is non-empty but the first name has no whitespace token;
every other path returns some text. -/
def generate_citation (paper : ArxivPaper) (format_type : String) (today : String) : Option String :=
  let title := paper.title
  let authors := paper.authors
  let year := toString paper.publishedYear
  let month := paper.publishedMonth
  let url := paper.entryId
  let arxiv_id := paper.shortId
  let formatted_authors := format_authors authors format_type
  if format_type = "apa" then
    some (formatted_authors ++ " (" ++ year ++ "). " ++ title ++ ". arXiv preprint arXiv:" ++
      arxiv_id ++ ". " ++ url)
  else if format_type = "mla" then
    some (formatted_authors ++ ". \"" ++ title ++ ".\" arXiv, " ++ month ++ " " ++ year ++ ", " ++
      url ++ ".")
  else if format_type = "chicago" then
    some (formatted_authors ++ ". \"" ++ title ++ ".\" arXiv preprint arXiv:" ++ arxiv_id ++
      " (" ++ year ++ "). " ++ url ++ ".")
  else if format_type = "harvard" then
    some (formatted_authors ++ ", " ++ year ++ ". " ++ title ++ ". arXiv:" ++ arxiv_id ++
      ". Available at: " ++ url ++ " [Accessed " ++ today ++ "].")
  else if format_type = "ieee" then
    some (formatted_authors ++ ", \"" ++ title ++ ",\" arXiv:" ++ arxiv_id ++ ", " ++ year ++ ".")
  else if format_type = "bibtex" then
    (match authors with
      | [] => some "Unknown"
      | a0 :: _ => (pySplit a0).getLast?).map (fun first_author_last =>
        "@article\x7b" ++ pyLower first_author_last ++ year ++ ",\n" ++
        "  author = \x7b" ++ String.intercalate " and " authors ++ "\x7d,\n" ++
        "  title = \x7b" ++ title ++ "\x7d,\n" ++
        "  journal = \x7barXiv preprint arXiv:" ++ arxiv_id ++ "\x7d,\n" ++
        "  year = \x7b" ++ year ++ "\x7d,\n" ++
        "  url = \x7b" ++ url ++ "\x7d\n\x7d")
  else
    some (formatted_authors ++ ". " ++ title ++ ". arXiv:" ++ arxiv_id ++ ", " ++ year ++ ". " ++ url)

/-- Outcome of next(client.results(arxiv.Search(id_list=[paper_id]))) on
line 158 of the source: a paper, a StopIteration from an empty iterator,
or any other exception carrying its str rendering. -/
inductive FetchOutcome where
  | found (paper : ArxivPaper)
  | stopIteration
  | raised (msg : String)

/-- Arguments dict of handle_citation, restricted to the two keys the
source reads: paper_id (required, KeyError when absent) and format
(optional, defaulting to apa). -/
structure HandleArgs where
  paper_id : Option String
  format : Option String

/-- Embedding of one mcp TextContent reply item: the type tag and the
ordered key-value object that its JSON text payload parses to. -/
structure TextContent where
  type : String
  obj : List (String × String)

/-- Error envelope built at lines 148, 174 and 183 of the source: a single
text item whose JSON object has the keys status and message. -/
def errorText (msg : String) : TextContent :=
  ⟨"text", [("status", "error"), ("message", msg)]⟩

/-- handle_citation from lines 140 to 189 of the source. A missing
paper_id key raises KeyError, caught by the generic handler, whose message
is the str of the exception, the quoted key name. The format value is
lower-cased, validated against CITATION_FORMATS, then the client is
consulted and generate_citation runs; StopIteration, any client exception,
and the IndexError from generate_citation are each caught and converted to
the error envelope, so the function is total. -/
def handle_citation (arguments : HandleArgs) (client : String → FetchOutcome)
    (today : String) : List TextContent :=
  match arguments.paper_id with
  | none => [errorText "Error: \x27paper_id\x27"]
  | some paper_id =>
    let format_type := pyLower (arguments.format.getD "apa")
    if format_type ∉ CITATION_FORMATS then
      [errorText ("Unsupported citation format: " ++ format_type ++ ". Supported formats: " ++
        String.intercalate ", " CITATION_FORMATS)]
    else
      match client paper_id with
      | .stopIteration => [errorText ("Paper " ++ paper_id ++ " not found on arXiv")]
      | .raised m => [errorText ("Error: " ++ m)]
      | .found paper =>
        match generate_citation paper format_type today with
        | none => [errorText "Error: list index out of range"]
        | some citation =>
          [⟨"text", [("status", "success"), ("paper_id", paper_id),
            ("format", format_type), ("citation", citation)]⟩]

/-- Fixture of section 8 of the spec: the five-author paper 1611.03530. -/
def zhangPaper : ArxivPaper :=
  { title := "Understanding Deep Learning Requires Rethinking Generalization"
  , authors := ["Zhang, Chiyuan", "Bengio, Samy", "Hardt, Moritz", "Recht, Benjamin",
      "Vinyals, Oriol"]
  , publishedYear := 2017
  , publishedMonth := "February"
  , entryId := "http://arxiv.org/abs/1611.03530v2"
  , shortId := "1611.03530" }

/-- Paper whose single author name is the empty string; its name has no
whitespace token, so the bibtex branch raises IndexError. -/
def emptyNamePaper : ArxivPaper :=
  { title := "T", authors := [""], publishedYear := 2020, publishedMonth := "January"
  , entryId := "u", shortId := "i" }

/-- Paper whose single author name is one space; again no token. -/
def spaceNamePaper : ArxivPaper :=
  { title := "T", authors := [" "], publishedYear := 2020, publishedMonth := "January"
  , entryId := "u", shortId := "i" }

/-- Client fixture whose every lookup yields an empty result iterator. -/
def emptyClient : String → FetchOutcome := fun _ => .stopIteration

example : pySplit "Zhang, Chiyuan" = ["Zhang,", "Chiyuan"] := by decide
example : format_authors ["A", "B", "C"] "chicago" = "A, B, and C" := by decide

/-- Client fixture whose every lookup raises a generic provider failure. -/
def failClient : String → FetchOutcome := fun _ => .raised "boom"

/-- Two strings with distinct first characters are distinct. -/
theorem string_ne_of_head_ne {s t : String} (h : s.data.head? ≠ t.data.head?) : s ≠ t :=
  fun e => h (congrArg (fun u => u.data.head?) e)

/-- Strings with equal character lists are equal. -/
theorem string_data_ext {s t : String} (h : s.data = t.data) : s = t := by
  cases s
  cases t
  cases h
  rfl

/-- C8: for every one of the six styles, format_authors applied to the
empty author list returns the empty string. -/
theorem format_authors_empty_all_styles :
    format_authors [] "apa" = "" ∧ format_authors [] "mla" = "" ∧
    format_authors [] "chicago" = "" ∧ format_authors [] "harvard" = "" ∧
    format_authors [] "ieee" = "" ∧ format_authors [] "bibtex" = "" :=
  ⟨rfl, rfl, rfl, rfl, rfl, rfl⟩

/-- C9: for every style other than harvard, generate_citation does not
read the clock argument, so two calls with the same metadata and style
return identical text whatever instants they run at. -/
theorem generate_citation_deterministic_except_harvard
    (paper : ArxivPaper) (format_type t1 t2 : String)
    (h : format_type ≠ "harvard") :
    generate_citation paper format_type t1 = generate_citation paper format_type t2 := by
  unfold generate_citation
  dsimp only
  split_ifs <;> rfl

/-- Witness for C9 at the five-author fixture and style apa. -/
theorem generate_citation_deterministic_except_harvard_witness :
    generate_citation zhangPaper "apa" "1 January 2020" =
      generate_citation zhangPaper "apa" "2 March 2021" :=
  generate_citation_deterministic_except_harvard zhangPaper "apa" "1 January 2020"
    "2 March 2021" (by decide)

/-- C1, counterexample: on the five-author fixture the bibtex entry does
not begin with the key zhang2017 that the spec scenario announces; the
source takes the last whitespace token of the name Zhang, Chiyuan, which
is Chiyuan, so the key is chiyuan2017. -/
theorem bibtex_zhang_key_not_zhang2017 :
    List.isPrefixOf "@article\x7bzhang2017,".data
      ((generate_citation zhangPaper "bibtex" "15 February 2017").getD "").data = false := by
  decide

/-- C1 as amended: the bibtex rendering of the five-author fixture begins
with the entry key chiyuan2017 and carries the author field holding all
five names joined by the separator word and. -/
theorem bibtex_zhang_entry_chiyuan_key_full_authors :
    ∃ rest, generate_citation zhangPaper "bibtex" "15 February 2017" =
      some (("@article\x7bchiyuan2017,\n  author = \x7bZhang, Chiyuan and Bengio, Samy " ++
        "and Hardt, Moritz and Recht, Benjamin and Vinyals, Oriol\x7d,\n") ++ rest) :=
  ⟨"  title = \x7bUnderstanding Deep Learning Requires Rethinking Generalization\x7d,\n" ++
    "  journal = \x7barXiv preprint arXiv:1611.03530\x7d,\n  year = \x7b2017\x7d,\n" ++
    "  url = \x7bhttp://arxiv.org/abs/1611.03530v2\x7d\n\x7d", by decide⟩

/-- C2, counterexample: when the single author name is the empty string
the bibtex branch raises IndexError (embedded as none), so no rendering
and in particular no author field exists for that metadata value. -/
theorem bibtex_author_field_missing_for_empty_name :
    generate_citation emptyNamePaper "bibtex" "1 January 2020" = none := by
  rfl

/-- C3, counterexample: a non-empty author list whose first name is a
single space has no whitespace token, so the bibtex branch raises
IndexError (none) instead of producing an entry key. -/
theorem bibtex_entry_key_missing_for_blank_name :
    generate_citation spaceNamePaper "bibtex" "1 January 2020" = none := by
  rfl

/-- Unfolding of the bibtex branch of generate_citation: the optional key
token (placeholder for an empty list, last whitespace token of the first
name otherwise) mapped into the serialized entry. -/
theorem generate_bibtex_eq (paper : ArxivPaper) (today : String) :
    generate_citation paper "bibtex" today =
      (match paper.authors with
        | [] => some "Unknown"
        | a0 :: _ => (pySplit a0).getLast?).map (fun first_author_last =>
          "@article\x7b" ++ pyLower first_author_last ++ toString paper.publishedYear ++ ",\n" ++
          "  author = \x7b" ++ String.intercalate " and " paper.authors ++ "\x7d,\n" ++
          "  title = \x7b" ++ paper.title ++ "\x7d,\n" ++
          "  journal = \x7barXiv preprint arXiv:" ++ paper.shortId ++ "\x7d,\n" ++
          "  year = \x7b" ++ toString paper.publishedYear ++ "\x7d,\n" ++
          "  url = \x7b" ++ paper.entryId ++ "\x7d\n\x7d") := by
  rfl

/-- C2 as amended: whenever the bibtex branch does not raise, that is
whenever the author list is empty or the first name has at least one
whitespace token, the author field of the entry is all authors joined by
the word and, in order, with nobody dropped and no et-al collapse,
whatever the author count. -/
theorem bibtex_author_field_full_list (paper : ArxivPaper) (today : String)
    (h : paper.authors = [] ∨ ∃ a0 rest, paper.authors = a0 :: rest ∧ pySplit a0 ≠ []) :
    ∃ pre post, generate_citation paper "bibtex" today =
      some (pre ++ ("  author = \x7b" ++ String.intercalate " and " paper.authors ++ "\x7d,\n") ++
        post) := by
  have hkey : ∃ tok, (match paper.authors with
      | [] => some "Unknown"
      | a0 :: _ => (pySplit a0).getLast?) = some tok := by
    rcases h with hempty | ⟨a0, rest, hcons, hne⟩
    · rw [hempty]
      exact ⟨"Unknown", rfl⟩
    · rw [hcons]
      exact Option.isSome_iff_exists.mp (List.getLast?_isSome.mpr hne)
  obtain ⟨tok, htok⟩ := hkey
  refine ⟨"@article\x7b" ++ pyLower tok ++ toString paper.publishedYear ++ ",\n",
    "  title = \x7b" ++ paper.title ++ "\x7d,\n" ++
    "  journal = \x7barXiv preprint arXiv:" ++ paper.shortId ++ "\x7d,\n" ++
    "  year = \x7b" ++ toString paper.publishedYear ++ "\x7d,\n" ++
    "  url = \x7b" ++ paper.entryId ++ "\x7d\n\x7d", ?_⟩
  rw [generate_bibtex_eq, htok]
  simp only [Option.map_some']
  exact congrArg some (string_data_ext (by
    simp only [String.data_append, List.append_assoc]))

/-- Witness for C2 at the five-author fixture. -/
theorem bibtex_author_field_full_list_witness :
    ∃ pre post, generate_citation zhangPaper "bibtex" "1 May 2020" =
      some (pre ++ ("  author = \x7b" ++ String.intercalate " and " zhangPaper.authors ++
        "\x7d,\n") ++ post) :=
  bibtex_author_field_full_list zhangPaper "1 May 2020"
    (Or.inr ⟨"Zhang, Chiyuan",
      ["Bengio, Samy", "Hardt, Moritz", "Recht, Benjamin", "Vinyals, Oriol"], rfl, by decide⟩)

/-- C3 as amended: whenever the first author name has a whitespace token,
the bibtex entry key is that last token lower-cased followed by the year;
with no authors at all the name part of the key is the lower-casing of the
fixed placeholder Unknown, which is the token unknown. The amendment
restricts the non-empty case to first names with at least one token,
since otherwise the branch raises IndexError. -/
theorem bibtex_entry_key_shape (paper : ArxivPaper) (today : String) :
    (paper.authors = [] → ∃ post, generate_citation paper "bibtex" today =
      some ("@article\x7b" ++ pyLower "Unknown" ++ toString paper.publishedYear ++ ",\n" ++
        post)) ∧
    (∀ a0 rest tok, paper.authors = a0 :: rest → (pySplit a0).getLast? = some tok →
      ∃ post, generate_citation paper "bibtex" today =
        some ("@article\x7b" ++ pyLower tok ++ toString paper.publishedYear ++ ",\n" ++ post)) ∧
    pyLower "Unknown" = "unknown" := by
  refine ⟨?_, ?_, by decide⟩
  · intro hempty
    refine ⟨"  author = \x7b" ++ String.intercalate " and " paper.authors ++ "\x7d,\n" ++
      "  title = \x7b" ++ paper.title ++ "\x7d,\n" ++
      "  journal = \x7barXiv preprint arXiv:" ++ paper.shortId ++ "\x7d,\n" ++
      "  year = \x7b" ++ toString paper.publishedYear ++ "\x7d,\n" ++
      "  url = \x7b" ++ paper.entryId ++ "\x7d\n\x7d", ?_⟩
    have hk : (match paper.authors with
        | [] => some "Unknown"
        | a0 :: _ => (pySplit a0).getLast?) = some "Unknown" := by rw [hempty]
    rw [generate_bibtex_eq, hk]
    simp only [Option.map_some']
    exact congrArg some (string_data_ext (by
      simp only [String.data_append, List.append_assoc]))
  · intro a0 rest tok hcons htok
    refine ⟨"  author = \x7b" ++ String.intercalate " and " paper.authors ++ "\x7d,\n" ++
      "  title = \x7b" ++ paper.title ++ "\x7d,\n" ++
      "  journal = \x7barXiv preprint arXiv:" ++ paper.shortId ++ "\x7d,\n" ++
      "  year = \x7b" ++ toString paper.publishedYear ++ "\x7d,\n" ++
      "  url = \x7b" ++ paper.entryId ++ "\x7d\n\x7d", ?_⟩
    have hk : (match paper.authors with
        | [] => some "Unknown"
        | a0 :: _ => (pySplit a0).getLast?) = some tok := by
      rw [hcons]
      exact htok
    rw [generate_bibtex_eq, hk]
    simp only [Option.map_some']
    exact congrArg some (string_data_ext (by
      simp only [String.data_append, List.append_assoc]))

/-- Witness for C3 at the five-author fixture: the key token is Chiyuan. -/
theorem bibtex_entry_key_shape_witness :
    ∃ post, generate_citation zhangPaper "bibtex" "1 May 2020" =
      some ("@article\x7b" ++ pyLower "Chiyuan" ++ toString zhangPaper.publishedYear ++
        ",\n" ++ post) :=
  (bibtex_entry_key_shape zhangPaper "1 May 2020").2.1 "Zhang, Chiyuan"
    ["Bengio, Samy", "Hardt, Moritz", "Recht, Benjamin", "Vinyals, Oriol"] "Chiyuan" rfl
    (by decide)

/-- C7: the chicago branch of format_authors returns the lone name for one
author, the pair joined by the word and for two, the comma-joined list
with a final comma-and before the last name for every count from three
through seven, and the first author followed by et al. for eight or more. -/
theorem format_authors_chicago_thresholds (authors : List String) :
    (∀ a, authors = [a] → format_authors authors "chicago" = a) ∧
    (∀ a b, authors = [a, b] → format_authors authors "chicago" = a ++ " and " ++ b) ∧
    (∀ xs z, authors = xs ++ [z] → 3 ≤ authors.length → authors.length ≤ 7 →
      format_authors authors "chicago" = String.intercalate ", " xs ++ ", and " ++ z) ∧
    (∀ a rest, authors = a :: rest → 8 ≤ authors.length →
      format_authors authors "chicago" = a ++ " et al.") := by
  refine ⟨?_, ?_, ?_, ?_⟩
  · rintro a rfl
    rfl
  · rintro a b rfl
    rfl
  · rintro xs z rfl h3 h7
    have hlen : (xs ++ [z]).length = xs.length + 1 := by simp
    rw [hlen] at h3 h7
    have hne : xs ++ [z] ≠ ([] : List String) := by simp
    have h1 : (xs ++ [z]).length ≠ 1 := by rw [hlen]; omega
    have h2 : (xs ++ [z]).length ≠ 2 := by rw [hlen]; omega
    have h7' : (xs ++ [z]).length ≤ 7 := by rw [hlen]; omega
    have hxs0 : xs ≠ [] := by
      intro hx
      rw [hx] at h3
      simp at h3
    have hxs1 : xs.length ≠ 1 := by omega
    have hxs6 : xs.length ≤ 6 := by omega
    simp [format_authors, hne, h1, h2, h7', hxs0, hxs1, hxs6, List.dropLast_concat,
      List.getLastD_concat]
  · rintro a rest rfl h8
    have hlen : (a :: rest).length = rest.length + 1 := by simp
    rw [hlen] at h8
    have hne : a :: rest ≠ ([] : List String) := by simp
    have h1 : (a :: rest).length ≠ 1 := by rw [hlen]; omega
    have h2 : (a :: rest).length ≠ 2 := by rw [hlen]; omega
    have h7 : ¬(a :: rest).length ≤ 7 := by rw [hlen]; omega
    have hr0 : rest ≠ [] := by
      intro hx
      rw [hx] at h8
      simp at h8
    have hr1 : rest.length ≠ 1 := by omega
    have hr6 : ¬rest.length ≤ 6 := by omega
    simp [format_authors, hne, h1, h2, h7, hr0, hr1, hr6]

/-- Witness for C7 at three and at eight authors. -/
theorem format_authors_chicago_thresholds_witness :
    format_authors ["A", "B", "C"] "chicago" = "A, B, and C" ∧
    format_authors ["A", "B", "C", "D", "E", "F", "G", "H"] "chicago" = "A et al." :=
  ⟨((format_authors_chicago_thresholds ["A", "B", "C"]).2.2.1 ["A", "B"] "C" rfl (by decide)
      (by decide)).trans (by decide),
   ((format_authors_chicago_thresholds ["A", "B", "C", "D", "E", "F", "G", "H"]).2.2.2 "A"
      ["B", "C", "D", "E", "F", "G", "H"] rfl (by decide)).trans (by decide)⟩

/-- Running handle_citation without the required paper_id key: the KeyError
from the dict lookup is caught by the generic handler, whose message is the
str rendering of the exception, the quoted key name. -/
theorem handle_run_keyerror (fmt? : Option String) (client : String → FetchOutcome)
    (today : String) :
    handle_citation ⟨none, fmt?⟩ client today = [errorText "Error: \x27paper_id\x27"] := rfl

/-- Running handle_citation when the normalized style is unsupported: the
validation error envelope comes back before the client is ever consulted
(the client argument does not occur in the result). -/
theorem handle_run_invalid (pid : String) (fmt? : Option String)
    (client : String → FetchOutcome) (today : String)
    (hv : pyLower (fmt?.getD "apa") ∉ CITATION_FORMATS) :
    handle_citation ⟨some pid, fmt?⟩ client today =
      [errorText ("Unsupported citation format: " ++ pyLower (fmt?.getD "apa") ++
        ". Supported formats: " ++ String.intercalate ", " CITATION_FORMATS)] := by
  unfold handle_citation
  dsimp only
  rw [if_pos hv]

/-- Running handle_citation when the client raises StopIteration. -/
theorem handle_run_stop (pid : String) (fmt? : Option String)
    (client : String → FetchOutcome) (today : String)
    (hv : pyLower (fmt?.getD "apa") ∈ CITATION_FORMATS)
    (hc : client pid = .stopIteration) :
    handle_citation ⟨some pid, fmt?⟩ client today =
      [errorText ("Paper " ++ pid ++ " not found on arXiv")] := by
  unfold handle_citation
  dsimp only
  rw [if_neg (not_not_intro hv), hc]

/-- Running handle_citation when the client raises some other failure. -/
theorem handle_run_raised (pid m : String) (fmt? : Option String)
    (client : String → FetchOutcome) (today : String)
    (hv : pyLower (fmt?.getD "apa") ∈ CITATION_FORMATS)
    (hc : client pid = .raised m) :
    handle_citation ⟨some pid, fmt?⟩ client today = [errorText ("Error: " ++ m)] := by
  unfold handle_citation
  dsimp only
  rw [if_neg (not_not_intro hv), hc]

/-- Running handle_citation when the paper resolves but the bibtex key
computation raises IndexError inside generate_citation. -/
theorem handle_run_nogen (pid : String) (fmt? : Option String)
    (client : String → FetchOutcome) (today : String) (paper : ArxivPaper)
    (hv : pyLower (fmt?.getD "apa") ∈ CITATION_FORMATS)
    (hc : client pid = .found paper)
    (hg : generate_citation paper (pyLower (fmt?.getD "apa")) today = none) :
    handle_citation ⟨some pid, fmt?⟩ client today =
      [errorText "Error: list index out of range"] := by
  unfold handle_citation
  dsimp only
  rw [if_neg (not_not_intro hv), hc]
  dsimp only
  rw [hg]

/-- Running handle_citation on the success path. -/
theorem handle_run_success (pid c : String) (fmt? : Option String)
    (client : String → FetchOutcome) (today : String) (paper : ArxivPaper)
    (hv : pyLower (fmt?.getD "apa") ∈ CITATION_FORMATS)
    (hc : client pid = .found paper)
    (hg : generate_citation paper (pyLower (fmt?.getD "apa")) today = some c) :
    handle_citation ⟨some pid, fmt?⟩ client today =
      [⟨"text", [("status", "success"), ("paper_id", pid),
        ("format", pyLower (fmt?.getD "apa")), ("citation", c)]⟩] := by
  unfold handle_citation
  dsimp only
  rw [if_neg (not_not_intro hv), hc]
  dsimp only
  rw [hg]

/-- C4: the style argument is lower-cased before validation, so two raw
styles with the same lower-casing are treated identically; when the
normalized style is not one of the six the reply is the error envelope
whose message lists the six supported names (spelled out in the last
conjunct), and the client is never consulted, as the reply expression does
not mention it. -/
theorem handle_citation_style_normalization (pid? : Option String)
    (client : String → FetchOutcome) (today s t : String) :
    (pyLower s = pyLower t →
      handle_citation ⟨pid?, some s⟩ client today =
        handle_citation ⟨pid?, some t⟩ client today) ∧
    (∀ p, pid? = some p → pyLower s ∉ CITATION_FORMATS →
      handle_citation ⟨pid?, some s⟩ client today =
        [errorText ("Unsupported citation format: " ++ pyLower s ++ ". Supported formats: " ++
          String.intercalate ", " CITATION_FORMATS)]) ∧
    String.intercalate ", " CITATION_FORMATS = "apa, mla, chicago, harvard, ieee, bibtex" := by
  refine ⟨?_, ?_, by decide⟩
  · intro h
    cases pid? with
    | none => rfl
    | some p =>
      unfold handle_citation
      dsimp only [Option.getD]
      rw [h]
  · intro p hp hv
    subst hp
    exact handle_run_invalid p (some s) client today hv

/-- Witness for C4: upper-cased APA is handled like apa, and the style
invalid_format draws the enumerating error envelope. -/
theorem handle_citation_style_normalization_witness :
    handle_citation ⟨some "1611.03530", some "APA"⟩ emptyClient "" =
      handle_citation ⟨some "1611.03530", some "apa"⟩ emptyClient "" ∧
    handle_citation ⟨some "1611.03530", some "invalid_format"⟩ emptyClient "" =
      [errorText ("Unsupported citation format: " ++ pyLower "invalid_format" ++
        ". Supported formats: " ++ String.intercalate ", " CITATION_FORMATS)] :=
  ⟨(handle_citation_style_normalization (some "1611.03530") emptyClient "" "APA" "apa").1
      (by decide),
   (handle_citation_style_normalization (some "1611.03530") emptyClient "" "invalid_format"
      "x").2.1 "1611.03530" rfl (by decide)⟩

/-- C5: an empty result iterator (StopIteration) yields the error envelope
whose message says the paper was not found, and that message is distinct
from every message the generic handler can produce, whatever the failure
description. -/
theorem handle_citation_not_found (pid : String) (fmt? : Option String)
    (client : String → FetchOutcome) (today : String)
    (hv : pyLower (fmt?.getD "apa") ∈ CITATION_FORMATS)
    (hc : client pid = .stopIteration) :
    handle_citation ⟨some pid, fmt?⟩ client today =
      [errorText ("Paper " ++ pid ++ " not found on arXiv")] ∧
    ∀ m : String, ("Paper " ++ pid ++ " not found on arXiv") ≠ ("Error: " ++ m) := by
  refine ⟨handle_run_stop pid fmt? client today hv hc, ?_⟩
  intro m
  apply string_ne_of_head_ne
  simp [String.data_append]

/-- Witness for C5 at a concrete id against the empty client. -/
theorem handle_citation_not_found_witness :
    handle_citation ⟨some "xyz", none⟩ emptyClient "" =
      [errorText ("Paper " ++ "xyz" ++ " not found on arXiv")] ∧
    ("Paper " ++ "xyz" ++ " not found on arXiv") ≠ ("Error: " ++ "boom") :=
  ⟨(handle_citation_not_found "xyz" none emptyClient "" (by decide) rfl).1,
   (handle_citation_not_found "xyz" none emptyClient "" (by decide) rfl).2 "boom"⟩

/-- C6: any client failure other than StopIteration is converted to the
error envelope carrying the failure description, and handle_citation is a
total function into single-item envelopes, so no exception ever propagates
past the boundary, whatever the arguments and the client behaviour. -/
theorem handle_citation_provider_error (pid m : String) (fmt? : Option String)
    (client : String → FetchOutcome) (today : String)
    (hv : pyLower (fmt?.getD "apa") ∈ CITATION_FORMATS)
    (hc : client pid = .raised m) :
    handle_citation ⟨some pid, fmt?⟩ client today = [errorText ("Error: " ++ m)] ∧
    ∀ (a : HandleArgs) (client2 : String → FetchOutcome) (today2 : String),
      ∃ item, handle_citation a client2 today2 = [item] := by
  refine ⟨handle_run_raised pid m fmt? client today hv hc, ?_⟩
  intro a client2 today2
  obtain ⟨pid2?, fmt2?⟩ := a
  cases pid2? with
  | none => exact ⟨_, rfl⟩
  | some p =>
    by_cases hv2 : pyLower (fmt2?.getD "apa") ∈ CITATION_FORMATS
    · cases hc2 : client2 p with
      | stopIteration => exact ⟨_, handle_run_stop p fmt2? client2 today2 hv2 hc2⟩
      | raised m2 => exact ⟨_, handle_run_raised p m2 fmt2? client2 today2 hv2 hc2⟩
      | found paper =>
        cases hg : generate_citation paper (pyLower (fmt2?.getD "apa")) today2 with
        | none => exact ⟨_, handle_run_nogen p fmt2? client2 today2 paper hv2 hc2 hg⟩
        | some c => exact ⟨_, handle_run_success p c fmt2? client2 today2 paper hv2 hc2 hg⟩
    · exact ⟨_, handle_run_invalid p fmt2? client2 today2 hv2⟩

/-- Witness for C6 against the raising client, plus a totality instance. -/
theorem handle_citation_provider_error_witness :
    handle_citation ⟨some "p", some "mla"⟩ failClient "" =
      [errorText ("Error: " ++ "boom")] ∧
    ∃ item, handle_citation ⟨none, none⟩ emptyClient "" = [item] :=
  ⟨(handle_citation_provider_error "p" "boom" (some "mla") failClient "" (by decide) rfl).1,
   (handle_citation_provider_error "p" "boom" (some "mla") failClient "" (by decide) rfl).2
     ⟨none, none⟩ emptyClient ""⟩

/-- C10: every run of handle_citation, however the arguments dict and the
client behave, returns exactly one text item whose JSON object either is
the two-key error envelope with status error, or is the success envelope
with status success carrying the paper id, the lower-cased style and the
citation text. -/
theorem handle_citation_envelope_shape (a : HandleArgs)
    (client : String → FetchOutcome) (today : String) :
    ∃ item, handle_citation a client today = [item] ∧ item.type = "text" ∧
      ((∃ m, item.obj = [("status", "error"), ("message", m)]) ∨
       (∃ pid c, a.paper_id = some pid ∧
         item.obj = [("status", "success"), ("paper_id", pid),
           ("format", pyLower (a.format.getD "apa")), ("citation", c)])) := by
  obtain ⟨pid?, fmt?⟩ := a
  cases pid? with
  | none => exact ⟨_, rfl, rfl, Or.inl ⟨_, rfl⟩⟩
  | some p =>
    by_cases hv : pyLower (fmt?.getD "apa") ∈ CITATION_FORMATS
    · cases hc : client p with
      | stopIteration =>
        exact ⟨_, handle_run_stop p fmt? client today hv hc, rfl, Or.inl ⟨_, rfl⟩⟩
      | raised m =>
        exact ⟨_, handle_run_raised p m fmt? client today hv hc, rfl, Or.inl ⟨_, rfl⟩⟩
      | found paper =>
        cases hg : generate_citation paper (pyLower (fmt?.getD "apa")) today with
        | none =>
          exact ⟨_, handle_run_nogen p fmt? client today paper hv hc hg, rfl, Or.inl ⟨_, rfl⟩⟩
        | some c =>
          exact ⟨_, handle_run_success p c fmt? client today paper hv hc hg, rfl,
            Or.inr ⟨p, c, rfl, rfl⟩⟩
    · exact ⟨_, handle_run_invalid p fmt? client today hv, rfl, Or.inl ⟨_, rfl⟩⟩
